import Mathlib

/-!
Shallow embedding of `dsi-progress-logger` (`src/lib.rs`) and proofs about it.

Modelling conventions:
* `Instant` and `Duration` are `Nat`, measured in milliseconds; every operation
  that reads the clock in the source takes the instant it reads as an explicit
  `now : Nat` argument.
* The log sink (`info!`) is modelled by returning the list of emitted lines.
* Rust `usize`/`Instant` subtraction panics on underflow (debug semantics), so
  `Display::fmt` is embedded as `render : ProgressLogger → Nat → Option Render`,
  `none` marking the panic.  The rendered text is represented structurally: the
  clauses the formatter writes, carrying the raw numerators/denominators of the
  floating-point quantities (their decimal formatting lives in the external
  `utils` helpers and is irrelevant to the claims).
* Memory display (`sysinfo`) is an external collaborator: the held `System` is
  modelled as the snapshot of figures it would report.
-/

namespace DPL

/-- Modelled from the spec: the time-unit ladder (`TimeUnit`) is defined in the
crate's `utils` module, whose source is not available; §4.4 of the spec
describes it as a closed ordered ladder nanoseconds → microseconds →
milliseconds → seconds → minutes → hours → days.  The tracker only stores an
optional pinned unit, and the claims below consult only its presence or
absence, never its conversion arithmetic. -/
inductive TimeUnit where
  | nanos | micros | millis | seconds | minutes | hours | days
deriving Repr, DecidableEq

/-- The figures held by the optional `sysinfo::System` handle: resident memory
of the current process (absent when the pid cannot be resolved) and
available/free/total system memory. -/
structure MemSnapshot where
  resident : Option Nat
  available : Nat
  free : Nat
  total : Nat
deriving Repr, DecidableEq

/-- State of `ProgressLogger` (all fields of the Rust struct; instants are
`Nat` milliseconds). -/
structure ProgressLogger where
  item_name : String
  log_interval : Nat
  expected_updates : Option Nat
  time_unit : Option TimeUnit
  local_speed : Bool
  start_time : Option Nat
  last_log_time : Nat
  next_log_time : Nat
  stop_time : Option Nat
  count : Nat
  last_count : Nat
  system : Option MemSnapshot
  pid : Nat
deriving Repr, DecidableEq

/-- `Default for ProgressLogger`: both `last_log_time` and `next_log_time` are
initialised with `Instant::now()` at construction, taken here as the explicit
construction instant. -/
def ProgressLogger.default (now : Nat) : ProgressLogger :=
  { item_name := "item"
    log_interval := 10000
    expected_updates := none
    time_unit := none
    local_speed := false
    start_time := none
    last_log_time := now
    next_log_time := now
    stop_time := none
    count := 0
    last_count := 0
    system := none
    pid := 0 }

/-- The timing/speed clause written by `fmt_timing_speed`: it is a pure
function of `seconds_per_item`, carried here as the pair
(elapsed milliseconds, item count) whose ratio it is. -/
structure TimingSpeed where
  elapsedMillis : Nat
  items : Nat
deriving Repr, DecidableEq

/-- The bracketed count/rate clause of a stopped render (only present when
`count != 0`). -/
structure StoppedClause where
  count : Nat
  grouped : Bool
  timing : TimingSpeed
deriving Repr, DecidableEq

/-- The `; X% done, Y to end` clause (present only when `expected_updates` is
set): the percentage is `100 * count / expected` and `millisToEnd` is the
computed `((expected - count) * elapsed_millis) / (count + 1)`. -/
structure EtaClause where
  count : Nat
  expected : Nat
  millisToEnd : Nat
deriving Repr, DecidableEq

/-- Structural rendering produced by `Display::fmt for ProgressLogger`. -/
inductive Render where
  /-- `ProgressLogger not started` -/
  | notStarted
  /-- `Elapsed: ...` with optional count/rate clause and optional memory clause. -/
  | stopped (elapsedMillis : Nat) (clause : Option StoppedClause)
      (mem : Option MemSnapshot)
  /-- Running line: count (grouped unless a time unit is pinned), elapsed,
  timing/speed clause, optional percent/ETA clause, optional local-speed
  clause, optional memory clause. -/
  | running (count : Nat) (grouped : Bool) (elapsedMillis : Nat)
      (timing : TimingSpeed) (eta : Option EtaClause)
      (localSpeed : Option TimingSpeed) (mem : Option MemSnapshot)
deriving Repr, DecidableEq

/-- Whether a render carries the percentage/ETA clause. -/
def Render.hasEta : Render → Bool
  | .running _ _ _ _ (some _) _ _ => true
  | _ => false

/-- `Display::fmt for ProgressLogger`, branch for branch.  `now` is the
`Instant::now()` read inside the running branch.  Returns `none` exactly when
the Rust formatter would panic on an underflowing `usize`/`Instant`
subtraction: `stop_time - start_time`, `now - start_time`,
`expected_updates - count`, `now - last_log_time`, `count - last_count`. -/
def ProgressLogger.render (pl : ProgressLogger) (now : Nat) : Option Render :=
  match pl.start_time with
  | none => some .notStarted
  | some start_time =>
    let grouped := pl.time_unit.isNone
    match pl.stop_time with
    | some stop_time =>
      if stop_time < start_time then none
      else
        let elapsed := stop_time - start_time
        let clause : Option StoppedClause :=
          if pl.count ≠ 0 then
            some { count := pl.count, grouped := grouped,
                   timing := { elapsedMillis := elapsed, items := pl.count } }
          else none
        some (.stopped elapsed clause pl.system)
    | none =>
      if now < start_time then none
      else
        let elapsed := now - start_time
        let timing : TimingSpeed := { elapsedMillis := elapsed, items := pl.count }
        let etaRes : Option (Option EtaClause) :=
          match pl.expected_updates with
          | none => some none
          | some expected =>
            if pl.count ≤ expected then
              some (some { count := pl.count, expected := expected,
                           millisToEnd := (expected - pl.count) * elapsed / (pl.count + 1) })
            else none
        match etaRes with
        | none => none
        | some eta =>
          let localRes : Option (Option TimingSpeed) :=
            if pl.local_speed then
              if pl.last_log_time ≤ now ∧ pl.last_count ≤ pl.count then
                some (some { elapsedMillis := now - pl.last_log_time,
                             items := pl.count - pl.last_count })
              else none
            else some none
          match localRes with
          | none => none
          | some localSp =>
            some (.running pl.count grouped elapsed timing eta localSp pl.system)

/-- A line handed to the log sink. -/
inductive Line where
  /-- The message logged by `start`. -/
  | message (s : String)
  /-- The literal `Completed.` logged by `done`. -/
  | completed
  /-- `info!("{}", self)`: a render of the logger (`none` = the format panicked). -/
  | render (r : Option Render)
deriving Repr, DecidableEq

/-- `ProgressLogger::start`. -/
def ProgressLogger.start (pl : ProgressLogger) (msg : String) (now : Nat) :
    ProgressLogger × List Line :=
  ({ pl with start_time := some now
             stop_time := none
             count := 0
             last_count := 0
             last_log_time := now
             next_log_time := now + pl.log_interval },
   [Line.message msg])

/-- `ProgressLogger::refresh`: refreshes the external memory probe; the
tracker's own fields are untouched (the probe's figures are external input,
modelled as the snapshot already held). -/
def ProgressLogger.refresh (pl : ProgressLogger) : ProgressLogger := pl

/-- `ProgressLogger::log`: refresh, emit a render of the current state, then
snapshot the count and re-derive the log times. -/
def ProgressLogger.log (pl : ProgressLogger) (now : Nat) : ProgressLogger × List Line :=
  let pl := pl.refresh
  let line := Line.render (pl.render now)
  ({ pl with last_count := pl.count
             last_log_time := now
             next_log_time := now + pl.log_interval },
   [line])

/-- `ProgressLogger::log_if`: `now` is the `Instant::now()` it reads. -/
def ProgressLogger.log_if (pl : ProgressLogger) (now : Nat) : ProgressLogger × List Line :=
  if pl.next_log_time ≤ now then pl.log now else (pl, [])

/-- `ProgressLogger::update`. -/
def ProgressLogger.update (pl : ProgressLogger) (now : Nat) : ProgressLogger × List Line :=
  ProgressLogger.log_if { pl with count := pl.count + 1 } now

/-- `ProgressLogger::update_with_count` (adds `count` to the counter). -/
def ProgressLogger.update_with_count (pl : ProgressLogger) (count now : Nat) :
    ProgressLogger × List Line :=
  ProgressLogger.log_if { pl with count := pl.count + count } now

/-- `ProgressLogger::LIGHT_UPDATE_MASK = (1 << 20) - 1`. -/
def ProgressLogger.LIGHT_UPDATE_MASK : Nat := (1 <<< 20) - 1

/-- `ProgressLogger::light_update`: the extra boolean records whether the
clock/throttle was consulted (i.e. whether `log_if`, and hence
`Instant::now()`, was called). -/
def ProgressLogger.light_update (pl : ProgressLogger) (now : Nat) :
    ProgressLogger × List Line × Bool :=
  let pl := { pl with count := pl.count + 1 }
  if pl.count &&& ProgressLogger.LIGHT_UPDATE_MASK = 0 then
    let r := pl.log_if now
    (r.1, r.2, true)
  else
    (pl, [], false)

/-- `ProgressLogger::update_and_display`: increment and force a log. -/
def ProgressLogger.update_and_display (pl : ProgressLogger) (now : Nat) :
    ProgressLogger × List Line :=
  ProgressLogger.log { pl with count := pl.count + 1 } now

/-- `ProgressLogger::stop`. -/
def ProgressLogger.stop (pl : ProgressLogger) (now : Nat) : ProgressLogger :=
  { pl with stop_time := some now, expected_updates := none }

/-- `ProgressLogger::done`: stop, emit `Completed.`, clear
`expected_updates` again, emit a final render. -/
def ProgressLogger.done (pl : ProgressLogger) (now : Nat) : ProgressLogger × List Line :=
  let pl := pl.stop now
  let pl := { pl with expected_updates := none }
  (pl, [Line.completed, Line.render (pl.render now)])

/-- `ProgressLogger::done_with_count`: set the count, then `done`. -/
def ProgressLogger.done_with_count (pl : ProgressLogger) (count now : Nat) :
    ProgressLogger × List Line :=
  ProgressLogger.done { pl with count := count } now

/-- `ProgressLogger::elapsed`: `start_time?.elapsed()`, i.e. `none` when not
started, otherwise the duration from `start_time` to `now`. -/
def ProgressLogger.elapsed (pl : ProgressLogger) (now : Nat) : Option Nat :=
  pl.start_time.map (fun s => now - s)

/-! Sequences of calls, for the claims quantifying over call histories. -/

/-- An update call together with the instant at which it is made. -/
inductive UpdOp where
  | plain (t : Nat)
  | withCount (k : Nat) (t : Nat)
deriving Repr, DecidableEq

/-- Is this a plain `update()` call? -/
def UpdOp.isPlain : UpdOp → Bool
  | .plain _ => true
  | .withCount _ _ => false

/-- The argument of an `update_with_count` call, 0 for plain `update`. -/
def UpdOp.added : UpdOp → Nat
  | .plain _ => 0
  | .withCount k _ => k

/-- Apply one update call to the tracker. -/
def UpdOp.apply (pl : ProgressLogger) : UpdOp → ProgressLogger
  | .plain t => (pl.update t).1
  | .withCount k t => (pl.update_with_count k t).1

/-- Run a sequence of update calls. -/
def runUpds (pl : ProgressLogger) (ops : List UpdOp) : ProgressLogger :=
  ops.foldl UpdOp.apply pl

/-- Any public mutating call, with the instant(s) it reads; the `set_*`
entries are writes to the `pub` configuration fields. -/
inductive Op where
  | start (msg : String) (t : Nat)
  | update (t : Nat)
  | update_with_count (k t : Nat)
  | light_update (t : Nat)
  | update_and_display (t : Nat)
  | stop (t : Nat)
  | done (t : Nat)
  | done_with_count (k t : Nat)
  | refresh
  | set_expected_updates (e : Option Nat)
  | set_item_name (s : String)
  | set_log_interval (d : Nat)
  | set_time_unit (u : Option TimeUnit)
  | set_local_speed (b : Bool)
deriving Repr, DecidableEq

/-- Apply one public call to the tracker (discarding emitted lines). -/
def Op.apply (pl : ProgressLogger) : Op → ProgressLogger
  | .start msg t => (pl.start msg t).1
  | .update t => (pl.update t).1
  | .update_with_count k t => (pl.update_with_count k t).1
  | .light_update t => (pl.light_update t).1
  | .update_and_display t => (pl.update_and_display t).1
  | .stop t => pl.stop t
  | .done t => (pl.done t).1
  | .done_with_count k t => (pl.done_with_count k t).1
  | .refresh => pl.refresh
  | .set_expected_updates e => { pl with expected_updates := e }
  | .set_item_name s => { pl with item_name := s }
  | .set_log_interval d => { pl with log_interval := d }
  | .set_time_unit u => { pl with time_unit := u }
  | .set_local_speed b => { pl with local_speed := b }

/-- Run a sequence of public calls. -/
def runOps (pl : ProgressLogger) (ops : List Op) : ProgressLogger :=
  ops.foldl Op.apply pl

/-- Is this a `start` call? -/
def Op.isStart : Op → Bool
  | .start _ _ => true
  | _ => false

/-- Run a sequence of `light_update` calls at the given instants, counting how
many of them consulted the clock/throttle. -/
def lightRun (pl : ProgressLogger) : List Nat → ProgressLogger × Nat
  | [] => (pl, 0)
  | t :: ts =>
    let r := pl.light_update t
    let rest := lightRun r.1 ts
    (rest.1, (if r.2.2 then 1 else 0) + rest.2)

/-- State reached by public calls only: construct at 0, `start` at 0, set the
`pub` field `expected_updates := some 1`, then `update` at instants 1 and 2
(neither is due, the default interval being 10s), leaving `count = 2 > 1`. -/
def c1state : ProgressLogger :=
  runOps (ProgressLogger.default 0)
    [Op.start "estimating" 0, Op.set_expected_updates (some 1), Op.update 1, Op.update 2]

/-! Basic facts about the operations. -/

theorem log_if_count (pl : ProgressLogger) (now : Nat) :
    (pl.log_if now).1.count = pl.count := by
  unfold ProgressLogger.log_if ProgressLogger.log ProgressLogger.refresh
  split <;> rfl

theorem log_if_start_time (pl : ProgressLogger) (now : Nat) :
    (pl.log_if now).1.start_time = pl.start_time := by
  unfold ProgressLogger.log_if ProgressLogger.log ProgressLogger.refresh
  split <;> rfl

theorem light_update_fst_count (pl : ProgressLogger) (now : Nat) :
    (pl.light_update now).1.count = pl.count + 1 := by
  unfold ProgressLogger.light_update
  dsimp only
  split
  · exact log_if_count _ _
  · rfl

theorem light_update_fst_start_time (pl : ProgressLogger) (now : Nat) :
    (pl.light_update now).1.start_time = pl.start_time := by
  unfold ProgressLogger.light_update
  dsimp only
  split
  · exact log_if_start_time _ _
  · rfl

theorem updOp_apply_count (pl : ProgressLogger) (op : UpdOp) :
    (UpdOp.apply pl op).count = pl.count + (if op.isPlain then 1 else 0) + op.added := by
  cases op with
  | plain t =>
    simp [UpdOp.apply, UpdOp.isPlain, UpdOp.added, ProgressLogger.update, log_if_count]
  | withCount k t =>
    simp [UpdOp.apply, UpdOp.isPlain, UpdOp.added, ProgressLogger.update_with_count,
      log_if_count]

theorem runUpds_count (pl : ProgressLogger) (ops : List UpdOp) :
    (runUpds pl ops).count =
      pl.count + (ops.filter UpdOp.isPlain).length + (ops.map UpdOp.added).sum := by
  induction ops generalizing pl with
  | nil => simp [runUpds]
  | cons op ops ih =>
    have h := ih (UpdOp.apply pl op)
    have hc := updOp_apply_count pl op
    simp only [runUpds, List.foldl_cons] at h ⊢
    rw [h, hc]
    cases hop : op.isPlain <;>
      simp [List.filter_cons, hop, List.sum_cons] <;> omega

/-! Claim theorems. -/

/-- C2, counterexample: `stop` writes `stop_time` unconditionally, so after
`start` at 0, `stop` at 1 and a second `stop` at 2 the stored stop instant is
the one of the second terminal transition (2), not of the first (1). -/
theorem c2_counterexample_second_stop_overwrites :
    ((((ProgressLogger.default 0).start "activity" 0).1.stop 1).stop 2).stop_time = some 2 ∧
    (((ProgressLogger.default 0).start "activity" 0).1.stop 1).stop_time = some 1 ∧
    (2 : Nat) ≠ 1 :=
  ⟨rfl, rfl, by decide⟩

/-- C2, amended: every terminal call (`stop`, `done`, `done_with_count`)
writes `stop_time := now`, so the stored stop instant is the one recorded by
the LAST terminal transition with no intervening `start`; only a subsequent
`start` clears it. -/
theorem c2_stop_time_of_last_terminal_call (pl : ProgressLogger) (msg : String) (n t : Nat) :
    (pl.stop t).stop_time = some t ∧
    (pl.done t).1.stop_time = some t ∧
    (pl.done_with_count n t).1.stop_time = some t ∧
    (pl.start msg t).1.stop_time = none :=
  ⟨rfl, rfl, rfl, rfl⟩

/-- C3: from every prior state, `start msg` emits exactly the message line,
resets `count` and `last_count` to 0, sets `start_time := some now`, clears
`stop_time`, and sets `last_log_time := now` and
`next_log_time := now + log_interval`. -/
theorem c3_start_resets_everything (pl : ProgressLogger) (msg : String) (now : Nat) :
    (pl.start msg now).2 = [Line.message msg] ∧
    (pl.start msg now).1.count = 0 ∧
    (pl.start msg now).1.last_count = 0 ∧
    (pl.start msg now).1.start_time = some now ∧
    (pl.start msg now).1.stop_time = none ∧
    (pl.start msg now).1.last_log_time = now ∧
    (pl.start msg now).1.next_log_time = now + pl.log_interval :=
  ⟨rfl, rfl, rfl, rfl, rfl, rfl, rfl⟩

/-- C8: after a `start`, any interleaving of plain `update()` calls and
`update_with_count(k)` calls leaves the counter at (number of plain updates) +
(sum of the `k`s): `update_with_count` adds to the counter, it does not
overwrite it. -/
theorem c8_count_is_sum_of_increments (pl : ProgressLogger) (msg : String) (t : Nat)
    (ops : List UpdOp) :
    (runUpds (pl.start msg t).1 ops).count =
      (ops.filter UpdOp.isPlain).length + (ops.map UpdOp.added).sum := by
  have h := runUpds_count (pl.start msg t).1 ops
  simpa [ProgressLogger.start] using h

/-- C4: `update` and `update_with_count` emit a line iff `next_log_time ≤ now`
at the call; every actual emission (including the forced one of
`update_and_display`) re-establishes `last_log_time = now`,
`next_log_time = now + log_interval` and `last_count = count`, hence the
invariant `next_log_time = last_log_time + log_interval` after every
emission. -/
theorem c4_throttle_emission (pl : ProgressLogger) (now k : Nat) :
    ((pl.update now).2 ≠ [] ↔ pl.next_log_time ≤ now) ∧
    ((pl.update_with_count k now).2 ≠ [] ↔ pl.next_log_time ≤ now) ∧
    (pl.next_log_time ≤ now →
      ((pl.update now).1.last_log_time = now ∧
       (pl.update now).1.next_log_time = now + pl.log_interval ∧
       (pl.update now).1.last_count = (pl.update now).1.count ∧
       (pl.update_with_count k now).1.last_log_time = now ∧
       (pl.update_with_count k now).1.next_log_time = now + pl.log_interval ∧
       (pl.update_with_count k now).1.last_count = (pl.update_with_count k now).1.count ∧
       (pl.update now).1.next_log_time = (pl.update now).1.last_log_time + pl.log_interval)) ∧
    ((pl.update_and_display now).1.last_log_time = now ∧
     (pl.update_and_display now).1.next_log_time = now + pl.log_interval ∧
     (pl.update_and_display now).1.last_count = (pl.update_and_display now).1.count ∧
     (pl.update_and_display now).1.next_log_time =
       (pl.update_and_display now).1.last_log_time + pl.log_interval) := by
  unfold ProgressLogger.update ProgressLogger.update_with_count
    ProgressLogger.update_and_display ProgressLogger.log_if ProgressLogger.log
    ProgressLogger.refresh
  by_cases h : pl.next_log_time ≤ now <;> simp [h]

/-- C4, witness: on a freshly constructed tracker (whose `next_log_time` is
the construction instant) an `update` at that same instant is due, and the
invariant is re-established. -/
theorem c4_throttle_emission_witness :
    ((ProgressLogger.default 0).update 0).1.next_log_time =
      ((ProgressLogger.default 0).update 0).1.last_log_time +
        (ProgressLogger.default 0).log_interval := by
  have h := c4_throttle_emission (ProgressLogger.default 0) 0 5
  exact (h.2.2.1 (by decide)).2.2.2.2.2.2

theorem mask_and_eq_mod (c : Nat) :
    c &&& ProgressLogger.LIGHT_UPDATE_MASK = c % 2 ^ 20 := by
  have h : ProgressLogger.LIGHT_UPDATE_MASK = 2 ^ 20 - 1 := by decide
  rw [h, Nat.and_pow_two_sub_one_eq_mod]

theorem light_update_checked_iff (pl : ProgressLogger) (t : Nat) :
    (pl.light_update t).2.2 = true ↔ (pl.count + 1) % 2 ^ 20 = 0 := by
  unfold ProgressLogger.light_update
  dsimp only
  rw [mask_and_eq_mod]
  split
  · next hcond => simpa using hcond
  · next hcond => simpa using hcond

theorem lightRun_count (ts : List Nat) (pl : ProgressLogger) :
    (lightRun pl ts).1.count = pl.count + ts.length := by
  induction ts generalizing pl with
  | nil => simp [lightRun]
  | cons t ts ih =>
    simp only [lightRun, List.length_cons]
    rw [ih, light_update_fst_count]
    omega

theorem checks_arith (c n : Nat) :
    ((if (c + 1) % 2 ^ 20 = 0 then 1 else 0) : Nat)
        + ((c + 1 + n) / 2 ^ 20 - (c + 1) / 2 ^ 20)
      = (c + (n + 1)) / 2 ^ 20 - c / 2 ^ 20 := by
  have hsucc := Nat.succ_div c (2 ^ 20)
  have hmono : (c + 1) / 2 ^ 20 ≤ (c + 1 + n) / 2 ^ 20 := Nat.div_le_div_right (by omega)
  have harr : c + (n + 1) = c + 1 + n := by omega
  rw [harr]
  set X := (c + 1 + n) / 2 ^ 20 with hX
  set B := (c + 1) / 2 ^ 20 with hB
  set A := c / 2 ^ 20 with hA
  by_cases hd : 2 ^ 20 ∣ c + 1
  · rw [if_pos (Nat.dvd_iff_mod_eq_zero.mp hd)]
    rw [if_pos hd] at hsucc
    omega
  · rw [if_neg (fun hmod => hd (Nat.dvd_iff_mod_eq_zero.mpr hmod))]
    rw [if_neg hd] at hsucc
    omega

theorem lightRun_checks (ts : List Nat) (pl : ProgressLogger) :
    (lightRun pl ts).2 = (pl.count + ts.length) / 2 ^ 20 - pl.count / 2 ^ 20 := by
  induction ts generalizing pl with
  | nil => simp [lightRun]
  | cons t ts ih =>
    simp only [lightRun, List.length_cons]
    rw [ih, light_update_fst_count]
    have hb : ((if (pl.light_update t).2.2 then 1 else 0) : Nat)
        = if (pl.count + 1) % 2 ^ 20 = 0 then 1 else 0 := by
      by_cases h : (pl.count + 1) % 2 ^ 20 = 0
      · rw [if_pos ((light_update_checked_iff pl t).mpr h), if_pos h]
      · rw [if_neg (fun hc => h ((light_update_checked_iff pl t).mp hc)), if_neg h]
    rw [hb]
    exact checks_arith pl.count ts.length

/-- C5: `light_update` always increments the counter by 1 and consults the
clock/throttle exactly when the post-increment count is a multiple of `2^20`;
hence from a fresh start (`count = 0`) a run of exactly `2^20` `light_update`
calls performs exactly one throttle check and leaves `count = 2^20`. -/
theorem c5_light_update_amortized (pl : ProgressLogger) (ts : List Nat)
    (h0 : pl.count = 0) (hlen : ts.length = 2 ^ 20) :
    (∀ q : ProgressLogger, ∀ u : Nat,
        (q.light_update u).1.count = q.count + 1 ∧
        ((q.light_update u).2.2 = true ↔ (q.count + 1) % 2 ^ 20 = 0)) ∧
    (lightRun pl ts).2 = 1 ∧
    (lightRun pl ts).1.count = 2 ^ 20 := by
  refine ⟨fun q u => ⟨light_update_fst_count q u, light_update_checked_iff q u⟩, ?_, ?_⟩
  · rw [lightRun_checks, h0, hlen, Nat.zero_add, Nat.div_self (by positivity), Nat.zero_div]
  · rw [lightRun_count, h0, hlen, Nat.zero_add]

/-- C5, witness: a concrete run of `2^20` `light_update` calls on a freshly
started tracker performs exactly one throttle check. -/
theorem c5_light_update_amortized_witness :
    (lightRun ((ProgressLogger.default 0).start "activity" 0).1
        (List.replicate (2 ^ 20) 0)).2 = 1 := by
  have h := c5_light_update_amortized ((ProgressLogger.default 0).start "activity" 0).1
    (List.replicate (2 ^ 20) 0) rfl (List.length_replicate _ _)
  exact h.2.1

theorem render_of_stopped (pl : ProgressLogger) (a b now : Nat)
    (h1 : pl.start_time = some a) (h2 : pl.stop_time = some b) :
    pl.render now =
      if b < a then none
      else
        some (Render.stopped (b - a)
          (if pl.count ≠ 0 then
             some { count := pl.count, grouped := pl.time_unit.isNone,
                    timing := { elapsedMillis := b - a, items := pl.count } }
           else none) pl.system) := by
  unfold ProgressLogger.render
  rw [h1, h2]

theorem render_no_eta_of_stopped (pl : ProgressLogger) (b now : Nat)
    (h2 : pl.stop_time = some b) :
    ∀ r : Render, pl.render now = some r → r.hasEta = false := by
  intro r hr
  cases h1 : pl.start_time with
  | none =>
    unfold ProgressLogger.render at hr
    rw [h1] at hr
    cases hr
    rfl
  | some a =>
    rw [render_of_stopped pl a b now h1 h2] at hr
    by_cases hba : b < a
    · rw [if_pos hba] at hr
      cases hr
    · rw [if_neg hba] at hr
      cases hr
      rfl

theorem log_if_stop_time (pl : ProgressLogger) (now : Nat) :
    (pl.log_if now).1.stop_time = pl.stop_time := by
  unfold ProgressLogger.log_if ProgressLogger.log ProgressLogger.refresh
  split <;> rfl

theorem light_update_fst_stop_time (pl : ProgressLogger) (now : Nat) :
    (pl.light_update now).1.stop_time = pl.stop_time := by
  unfold ProgressLogger.light_update
  dsimp only
  split
  · exact log_if_stop_time _ _
  · rfl

theorem op_apply_stop_time_isSome (pl : ProgressLogger) (op : Op)
    (hop : op.isStart = false) (h : pl.stop_time.isSome) :
    (Op.apply pl op).stop_time.isSome := by
  cases op <;>
    simp_all [Op.apply, Op.isStart, ProgressLogger.update,
      ProgressLogger.update_with_count, ProgressLogger.update_and_display,
      ProgressLogger.stop, ProgressLogger.done, ProgressLogger.done_with_count,
      ProgressLogger.refresh, ProgressLogger.log, log_if_stop_time,
      light_update_fst_stop_time]

theorem runOps_stop_time_isSome (ops : List Op) (pl : ProgressLogger)
    (hops : ∀ op ∈ ops, op.isStart = false) (h : pl.stop_time.isSome) :
    (runOps pl ops).stop_time.isSome := by
  induction ops generalizing pl with
  | nil => exact h
  | cons op ops ih =>
    simp only [runOps, List.foldl_cons] at ih ⊢
    exact ih (Op.apply pl op) (fun o ho => hops o (List.mem_cons_of_mem op ho))
      (op_apply_stop_time_isSome pl op (hops op (List.mem_cons_self op ops)) h)

/-- C6: `done` and `done_with_count` always leave `expected_updates = none`,
and every render taken at or after their completion — including the final
render `done` itself emits — carries no percentage/ETA clause. -/
theorem c6_done_clears_expected (pl : ProgressLogger) (now later n : Nat) :
    (pl.done now).1.expected_updates = none ∧
    (pl.done_with_count n now).1.expected_updates = none ∧
    (∀ r : Render, (pl.done now).1.render later = some r → r.hasEta = false) ∧
    (∀ r : Render, (pl.done_with_count n now).1.render later = some r → r.hasEta = false) ∧
    (∀ ops : List Op, (∀ op ∈ ops, op.isStart = false) →
      ∀ r : Render, (runOps (pl.done now).1 ops).render later = some r →
        r.hasEta = false) ∧
    (∀ o : Option Render, ∀ r : Render,
        (pl.done now).2 = [Line.completed, Line.render o] → o = some r →
          r.hasEta = false) := by
  refine ⟨rfl, rfl, render_no_eta_of_stopped _ now later rfl,
    render_no_eta_of_stopped _ now later rfl, ?_, ?_⟩
  · intro ops hops r hr
    have hs := runOps_stop_time_isSome ops (pl.done now).1 hops rfl
    obtain ⟨b, hb⟩ := Option.isSome_iff_exists.mp hs
    exact render_no_eta_of_stopped _ b later hb r hr
  · intro o r h2 hor
    have hdef : (pl.done now).2 =
        [Line.completed, Line.render ((pl.done now).1.render now)] := rfl
    rw [hdef] at h2
    simp only [List.cons.injEq, and_true, true_and, Line.render.injEq] at h2
    refine render_no_eta_of_stopped (pl.done now).1 now now rfl r ?_
    rw [h2, hor]

/-- C6, witness: after `start` at 0 and `done` at 5 with zero items, a render
at 7 is the stopped line with no clause, and it has no ETA. -/
theorem c6_done_clears_expected_witness :
    ((((ProgressLogger.default 0).start "activity" 0).1.done 5).1.render 7 =
      some (Render.stopped 5 none none)) ∧
    (Render.stopped 5 none none).hasEta = false := by
  refine ⟨rfl, ?_⟩
  exact (c6_done_clears_expected ((ProgressLogger.default 0).start "activity" 0).1
    5 7 3).2.2.1 _ rfl

/-- C7: rendering a stopped tracker uses the frozen elapsed time
`stop_time - start_time` (independent of the render instant), omits the
count/rate clause exactly when `count = 0`, and never carries a
percentage/ETA clause. -/
theorem c7_stopped_render_frozen (pl : ProgressLogger) (a b now u : Nat)
    (h1 : pl.start_time = some a) (h2 : pl.stop_time = some b) :
    pl.render now = pl.render u ∧
    (a ≤ b →
      pl.render now = some (Render.stopped (b - a)
        (if pl.count ≠ 0 then
           some { count := pl.count, grouped := pl.time_unit.isNone,
                  timing := { elapsedMillis := b - a, items := pl.count } }
         else none) pl.system)) ∧
    (∀ r : Render, pl.render now = some r → r.hasEta = false) := by
  have hn := render_of_stopped pl a b now h1 h2
  have hu := render_of_stopped pl a b u h1 h2
  refine ⟨by rw [hn, hu], ?_, render_no_eta_of_stopped pl b now h2⟩
  intro hab
  rw [hn, if_neg (by omega)]

/-- C7, witness: a tracker started at 0 and stopped at 5 renders identically
at instants 7 and 9. -/
theorem c7_stopped_render_frozen_witness :
    (((ProgressLogger.default 0).start "activity" 0).1.stop 5).render 7 =
      (((ProgressLogger.default 0).start "activity" 0).1.stop 5).render 9 :=
  (c7_stopped_render_frozen _ 0 5 7 9 rfl rfl).1

/-- C1, counterexample: on the reachable running state with
`expected_updates = some 1` and `count = 2`, rendering fails — the `usize`
subtraction `expected_updates - count` in the ETA computation underflows, so
the formatter aborts instead of producing a line. -/
theorem c1_counterexample_render_panics_past_expected :
    c1state.count = 2 ∧ c1state.expected_updates = some 1 ∧
    c1state.stop_time = none ∧ c1state.render 3 = none :=
  ⟨rfl, rfl, rfl, rfl⟩

/-- C1, amended: rendering a running tracker with `expected_updates = some e`
succeeds whenever `count ≤ e` (under clock monotonicity), the ETA being
`(e - count) * elapsed / (count + 1)` with its division structurally guarded
by the `+ 1`; for `count > e` the subtraction `e - count` underflows and
rendering aborts. -/
theorem c1_render_succeeds_within_expected (pl : ProgressLogger) (st e now : Nat)
    (h1 : pl.start_time = some st) (h2 : pl.stop_time = none)
    (h3 : pl.expected_updates = some e) (h4 : pl.count ≤ e)
    (h5 : st ≤ now) (h6 : pl.last_log_time ≤ now) (h7 : pl.last_count ≤ pl.count) :
    pl.render now = some (Render.running pl.count pl.time_unit.isNone (now - st)
      { elapsedMillis := now - st, items := pl.count }
      (some { count := pl.count, expected := e,
              millisToEnd := (e - pl.count) * (now - st) / (pl.count + 1) })
      (if pl.local_speed then
         some { elapsedMillis := now - pl.last_log_time,
                items := pl.count - pl.last_count }
       else none)
      pl.system) := by
  by_cases hl : pl.local_speed <;>
    simp [ProgressLogger.render, h1, h2, h3, h4, hl, Nat.not_lt.mpr h5, h6, h7]

/-- C1 (amended), witness: a reachable running state with
`expected_updates = some 5` and `count = 2` renders successfully at instant 3,
with ETA `(5 - 2) * 3 / (2 + 1) = 3`. -/
theorem c1_render_succeeds_within_expected_witness :
    (runOps (ProgressLogger.default 0)
        [Op.start "estimating" 0, Op.set_expected_updates (some 5),
         Op.update 1, Op.update 2]).render 3 =
      some (Render.running 2 true 3 { elapsedMillis := 3, items := 2 }
        (some { count := 2, expected := 5, millisToEnd := 3 }) none none) := by
  exact c1_render_succeeds_within_expected _ 0 5 3 rfl rfl rfl
    (by decide) (by decide) (by decide) (by decide)

theorem op_apply_start_time (pl : ProgressLogger) (op : Op) :
    (Op.apply pl op).start_time =
      match op with
      | .start _ t => some t
      | _ => pl.start_time := by
  cases op <;>
    simp [Op.apply, ProgressLogger.start, ProgressLogger.update,
      ProgressLogger.update_with_count, ProgressLogger.update_and_display,
      ProgressLogger.stop, ProgressLogger.done, ProgressLogger.done_with_count,
      ProgressLogger.refresh, ProgressLogger.log, log_if_start_time,
      light_update_fst_start_time]

theorem runOps_start_time_none (ops : List Op) (pl : ProgressLogger) :
    ((runOps pl ops).start_time = none) ↔
      (pl.start_time = none ∧ ∀ op ∈ ops, op.isStart = false) := by
  induction ops generalizing pl with
  | nil => simp [runOps]
  | cons op ops ih =>
    simp only [runOps, List.foldl_cons] at ih ⊢
    rw [ih (Op.apply pl op)]
    have h := op_apply_start_time pl op
    cases op <;> simp_all [Op.isStart]

/-- C9: `elapsed()` is absent iff no `start` call ever happened; once started
it reports the duration from `start_time` to the current instant, reading no
other state — in particular `stop_time` does not freeze it, as the last
conjunct shows for an arbitrary stop instant. (`elapsed` is a plain function
of the state, so it changes no state by construction.) -/
theorem c9_elapsed_query (t0 now s b : Nat) (ops : List Op) (pl : ProgressLogger) :
    ((runOps (ProgressLogger.default t0) ops).elapsed now = none ↔
      ∀ op ∈ ops, op.isStart = false) ∧
    (pl.start_time = some s → pl.elapsed now = some (now - s)) ∧
    (({ pl with stop_time := some b } : ProgressLogger).elapsed now = pl.elapsed now) := by
  refine ⟨?_, ?_, rfl⟩
  · unfold ProgressLogger.elapsed
    rw [Option.map_eq_none', runOps_start_time_none]
    simp [ProgressLogger.default]
  · intro h
    unfold ProgressLogger.elapsed
    rw [h]
    rfl

/-- C9, witness: a tracker started at 2 and stopped at 5 still reports
elapsed time up to the query instant 9, namely `9 - 2`. -/
theorem c9_elapsed_query_witness :
    (((ProgressLogger.default 0).start "activity" 2).1.stop 5).elapsed 9 = some (9 - 2) :=
  (c9_elapsed_query 0 9 2 5 [] _).2.1 rfl

/-- C10: no operation checks the lifecycle state before acting: on a freshly
constructed, never-started tracker, every update variant still increments the
counter and `stop` records a stop instant; and since `next_log_time` is
initialised to the construction instant, the very first `update` (at any
instant not before construction) immediately emits a render of the
not-started tracker, i.e. the `ProgressLogger not started` line. -/
theorem c10_no_lifecycle_check (t0 now k : Nat) (h : t0 ≤ now) :
    ((ProgressLogger.default t0).update now).1.count = 1 ∧
    ((ProgressLogger.default t0).update_with_count k now).1.count = k ∧
    ((ProgressLogger.default t0).light_update now).1.count = 1 ∧
    ((ProgressLogger.default t0).update_and_display now).1.count = 1 ∧
    ((ProgressLogger.default t0).stop now).stop_time = some now ∧
    ((ProgressLogger.default t0).update now).2 = [Line.render (some Render.notStarted)] := by
  refine ⟨?_, ?_, ?_, rfl, rfl, ?_⟩
  · rw [ProgressLogger.update, log_if_count]
    rfl
  · rw [ProgressLogger.update_with_count, log_if_count]
    simp [ProgressLogger.default]
  · rw [light_update_fst_count]
    rfl
  · simp [ProgressLogger.update, ProgressLogger.log_if, ProgressLogger.log,
      ProgressLogger.refresh, ProgressLogger.render, ProgressLogger.default, h]

/-- C10, witness: the first `update` on a tracker constructed at instant 0,
made at instant 0, emits the not-started line. -/
theorem c10_no_lifecycle_check_witness :
    ((ProgressLogger.default 0).update 0).2 = [Line.render (some Render.notStarted)] :=
  (c10_no_lifecycle_check 0 0 3 (Nat.le_refl 0)).2.2.2.2.2

end DPL
